import Mathlib

/-!
Verification of the notebook test harness of the neuron-workshops repository.

The shell runner `run_tests.sh` is embedded directly: its directory checks,
virtual-environment check, command-line argument loop, choice of pytest
target, and exit-code propagation under `set -e`.  The parts of the harness
that live in configuration files absent from the sources (`test_notebooks.py`,
`pytest.ini`) and in the external pytest/nbval engine are modelled from the
specification; each such definition carries a doc comment saying so.
-/

namespace NeuronWorkshops

/-- Outcome recorded for one executed notebook case.  `failed` carries the
failure kind from the spec's error taxonomy. -/
inductive FailKind where
  | execError
  | outputMismatch
  | timeoutErr
  deriving DecidableEq, Repr

/-- Status of a notebook case after the run. -/
inductive CaseResult where
  | passed
  | failed (k : FailKind)
  | skipped
  deriving DecidableEq, Repr

/-- Whether a case result is a failure. -/
def isFail : CaseResult → Bool
  | .failed _ => true
  | _ => false

/-- The filesystem facts `run_tests.sh` inspects before running anything:
whether `labs` exists in the current directory (line 17), whether the
`neuron-workshops/labs` fallback exists (line 19), whether the `../labs`
fallback exists (line 22), and whether the Neuron virtual-environment
activation file exists (lines 36-37). -/
structure Env where
  labsHere : Bool
  labsInSubdir : Bool
  labsInParent : Bool
  venvPresent : Bool
  deriving DecidableEq, Repr

/-- `run_tests.sh` lines 17-31: the labs directory is located either in the
current directory or via one of the two `cd` fallbacks; otherwise the script
exits 1. -/
def labsFound (e : Env) : Bool :=
  e.labsHere || e.labsInSubdir || e.labsInParent

/-- Classification of the script's early failure exits: line 29 (labs
directory not found) and line 43 (Neuron venv missing), plus the `set -e`
abort when `shift 2` on line 63 has nothing to shift. -/
inductive ErrClass where
  | discovery
  | environment
  | badArgs
  deriving DecidableEq, Repr

/-- The mutable variables of the argument loop of `run_tests.sh`
lines 55-82: `PYTEST_ARGS` (a word list), `SPECIFIC_NOTEBOOK`, and whether
`REPORT_HTML` was set. -/
structure ParsedArgs where
  pytestArgs : List String
  specificNotebook : String
  htmlReport : Bool
  deriving DecidableEq, Repr

/-- Initial values of the loop variables (`run_tests.sh` lines 55-57). -/
def emptyArgs : ParsedArgs :=
  { pytestArgs := [], specificNotebook := "", htmlReport := false }

/-- The `while [[ $# -gt 0 ]] ... case` loop of `run_tests.sh` lines 59-82.
`--notebook` consumes the next word into `SPECIFIC_NOTEBOOK` (`shift 2`;
with no next word `shift 2` fails and `set -e` aborts the script, the `none`
result); `--html-report` sets the report flag; `--fast` appends
`-x --tb=line`; `--verbose` appends `-vv`; anything else is passed through
to `PYTEST_ARGS`. -/
def parseArgsFrom (acc : ParsedArgs) : List String → Option ParsedArgs
  | [] => some acc
  | a :: rest =>
    if a = "--notebook" then
      match rest with
      | [] => none
      | v :: rest2 => parseArgsFrom { acc with specificNotebook := v } rest2
    else if a = "--html-report" then
      parseArgsFrom { acc with htmlReport := true } rest
    else if a = "--fast" then
      parseArgsFrom { acc with pytestArgs := acc.pytestArgs ++ ["-x", "--tb=line"] } rest
    else if a = "--verbose" then
      parseArgsFrom { acc with pytestArgs := acc.pytestArgs ++ ["-vv"] } rest
    else
      parseArgsFrom { acc with pytestArgs := acc.pytestArgs ++ [a] } rest

/-- Parse a full command line starting from the initial loop variables. -/
def parseArgs (argv : List String) : Option ParsedArgs :=
  parseArgsFrom emptyArgs argv

/-- What pytest is pointed at: `run_tests.sh` line 91 runs
`pytest ... --nbval "labs/$SPECIFIC_NOTEBOOK"` when a specific notebook was
requested, line 97 runs `pytest ... --nbval labs/` otherwise. -/
inductive PytestTarget where
  | single (path : String)
  | allLabs
  deriving DecidableEq, Repr

/-- `run_tests.sh` line 89: the `[ -n "$SPECIFIC_NOTEBOOK" ]` test.  An empty
`SPECIFIC_NOTEBOOK` falls through to testing all of `labs/`; a non-empty one
is prefixed with `labs/` (line 91). -/
def targetOf (a : ParsedArgs) : PytestTarget :=
  if a.specificNotebook = "" then .allLabs
  else .single ("labs/" ++ a.specificNotebook)

/-- `run_tests.sh` lines 69-70: `--fast` puts `-x` into `PYTEST_ARGS`, and
pytest stops at the first failing test exactly when `-x` is among its
arguments. -/
def hasFailFast (a : ParsedArgs) : Bool :=
  a.pytestArgs.contains "-x"

/-- Modelled from the spec: the fail-fast behaviour of the external pytest
engine invoked by `run_tests.sh` ("stop on first failure"): under `-x` the
executed cases are the discovered cases up to and including the first
failing one. -/
def upToFirstFailure : List CaseResult → List CaseResult
  | [] => []
  | r :: rest => if isFail r then [r] else r :: upToFirstFailure rest

/-- Modelled from the spec: which of the discovered cases pytest executes.
Without `-x` every case runs; with `-x` execution stops at the first
failure. -/
def runPytest (failFast : Bool) (suite : List CaseResult) : List CaseResult :=
  if failFast then upToFirstFailure suite else suite

/-- Modelled from the spec: the external pytest engine's process exit code,
"Exit code 0 on all-pass, nonzero otherwise". -/
def pytestExit (results : List CaseResult) : Nat :=
  if results.any isFail then 1 else 0

/-- The observable result of one invocation of `run_tests.sh`: its process
exit code, which early-failure class fired (if any), the statuses of the
notebook cases that were actually executed, and the pytest target (absent
when the script aborted before reaching pytest). -/
structure ScriptResult where
  exitCode : Nat
  errClass : Option ErrClass
  executed : List CaseResult
  target : Option PytestTarget
  deriving DecidableEq, Repr

/-- End-to-end behaviour of `run_tests.sh` on an invocation: `e` is the
filesystem state it inspects, `argv` its command line, and `suite` the
would-be outcomes of the notebook cases pytest discovers, in discovery
order.  Lines 17-31: without a labs directory the script exits 1 having run
nothing.  Lines 36-44: without the Neuron venv it exits 1 having run
nothing.  Lines 59-82 parse the arguments (`set -e` aborts on a dangling
`--notebook`).  Lines 89-98 run pytest; under `set -e` a nonzero pytest
exit aborts the script with that exit code, and on a zero pytest exit the
trailing check of lines 100-108 prints the success banner and the script
ends with status 0 — so the script's exit code is exactly pytest's. -/
def runScript (e : Env) (argv : List String) (suite : List CaseResult) : ScriptResult :=
  if labsFound e = false then
    { exitCode := 1, errClass := some .discovery, executed := [], target := none }
  else if e.venvPresent = false then
    { exitCode := 1, errClass := some .environment, executed := [], target := none }
  else
    match parseArgs argv with
    | none => { exitCode := 1, errClass := some .badArgs, executed := [], target := none }
    | some a =>
      let ex := runPytest (hasFailFast a) suite
      { exitCode := pytestExit ex, errClass := none, executed := ex,
        target := some (targetOf a) }

/-- Whether the character list `pat` occurs at the very start of `l`. -/
def leadingMatch : List Char → List Char → Bool
  | _, [] => true
  | [], _ :: _ => false
  | c :: cs, d :: ds => c == d && leadingMatch cs ds

/-- Whether the character list `pat` occurs somewhere inside `l`. -/
def containsSeq : List Char → List Char → Bool
  | [], pat => pat.isEmpty
  | c :: cs, pat => leadingMatch (c :: cs) pat || containsSeq cs pat

/-- Whether the string `marker` occurs as a substring of the path `p`. -/
def pathHas (p marker : String) : Bool :=
  containsSeq p.toList marker.toList

/-- The notebook categories of the testing guide's timeout table, plus the
catch-all for paths matching none of them. -/
inductive Category where
  | nxd
  | fineTuning
  | vllm
  | nki
  | uncategorized
  deriving DecidableEq, Repr

/-- The timeout table of the testing guide (minutes): NxD 30, Fine-tuning 60,
vLLM 30, NKI 15; `defaultT` is the default budget for uncategorized
notebooks. -/
def timeoutFor (defaultT : Nat) : Category → Nat
  | .nxd => 30
  | .fineTuning => 60
  | .vllm => 30
  | .nki => 15
  | .uncategorized => defaultT

/-- Modelled from the spec: the category classifier lives in
`test_notebooks.py`, which the testing guide lists but which is absent from
the sources.  A notebook path is classified by which category marker it
contains, longest marker first ("longest-matching path-prefix rule"):
`FineTuning`, then `vLLM`, then `NxD`, then `NKI`; unmatched paths are
uncategorized. -/
def classifyCategory (p : String) : Category :=
  if pathHas p "FineTuning" then .fineTuning
  else if pathHas p "vLLM" then .vllm
  else if pathHas p "NxD" then .nxd
  else if pathHas p "NKI" then .nki
  else .uncategorized

/-- Modelled from the spec: classification of a notebook path into its
(category, timeout) pair; the timeout is looked up from the category alone. -/
def classify (defaultT : Nat) (p : String) : Category × Nat :=
  (classifyCategory p, timeoutFor defaultT (classifyCategory p))

/-- One executed notebook cell: whether it raised an unhandled exception,
and whether its captured output matches the stored expected output. -/
structure CellRun where
  raised : Bool
  outputMatches : Bool
  deriving DecidableEq, Repr

/-- Output comparison mode: strict (`--nbval`, outputs must match) or
relaxed (`--nbval-lax`, execution success alone suffices). -/
inductive CompareMode where
  | strict
  | lax
  deriving DecidableEq, Repr

/-- Modelled from the spec: the comparator of the nbval engine configured by
the harness.  A cell raising fails the case with an execution error; in
strict mode any output mismatch fails the case; in relaxed mode output
content is ignored. -/
def compareCells (mode : CompareMode) (cells : List CellRun) : CaseResult :=
  if cells.any (·.raised) then .failed .execError
  else
    match mode with
    | .lax => .passed
    | .strict =>
      if cells.all (·.outputMatches) then .passed else .failed .outputMismatch

/-- One notebook case as the executor sees it: its wall-clock execution
duration, its category's timeout budget (same time unit), and its cells'
run records. -/
structure NotebookExec where
  duration : Nat
  budget : Nat
  cells : List CellRun
  deriving DecidableEq, Repr

/-- Modelled from the spec: the executor configured by `test_notebooks.py`
and `pytest.ini` (absent from the sources).  A notebook whose wall-clock
duration exceeds its category's budget is aborted and fails with
`TimeoutError`; otherwise the case is judged by the comparator. -/
def executeCase (mode : CompareMode) (c : NotebookExec) : CaseResult :=
  if c.budget < c.duration then .failed .timeoutErr
  else compareCells mode c.cells

/-- A path in the discovery tree, as its list of `/`-separated components
relative to the root. -/
abbrev FilePath' := List String

/-- Whether the last path component names a notebook file, as the
`-name "*.ipynb"` test of `run_tests.sh` line 95 selects. -/
def isNotebookPath (p : FilePath') : Bool :=
  match p.getLast? with
  | some leaf => leadingMatch leaf.toList.reverse ".ipynb".toList.reverse
  | none => false

/-- Whether some directory component of the path is the checkpoint marker,
as the `-not -path "*/.ipynb_checkpoints/*"` test of `run_tests.sh` line 95
excludes. -/
def inCheckpointDir (p : FilePath') : Bool :=
  p.dropLast.contains ".ipynb_checkpoints"

/-- Modelled from the spec: notebook discovery ("lazy sequence of notebook
file paths, excluding any path containing a checkpoint-marker directory"),
performed by the pytest collection configured in `pytest.ini` (absent from
the sources) and mirrored by the `find` command of `run_tests.sh` line 95.
`files` is every file path under the root, in walk order. -/
def discoverNotebooks (files : List FilePath') : List FilePath' :=
  files.filter fun p => isNotebookPath p && !inCheckpointDir p

/-- Modelled from the spec: the sequential schedule of the executor
("single-threaded, strictly sequential execution across notebooks").
Each case, given here as its path paired with its duration, is assigned the
half-open wall-clock interval it occupies; each case starts exactly when
the previous one ends. -/
def scheduleRun (start : Nat) : List (String × Nat) → List (String × Nat × Nat)
  | [] => []
  | (p, d) :: rest => (p, start, start + d) :: scheduleRun (start + d) rest

/-- A scheduled case is active at instant `t` when `t` lies in its
interval. -/
def activeAt (entry : String × Nat × Nat) (t : Nat) : Prop :=
  entry.2.1 ≤ t ∧ t < entry.2.2

end NeuronWorkshops

namespace NeuronWorkshops

example : classify 20 "labs/NxD/a.ipynb" = (.nxd, 30) := by decide

example : classify 20 "labs/FineTuning/b.ipynb" = (.fineTuning, 60) := by decide

example : classify 20 "labs/misc/c.ipynb" = (.uncategorized, 20) := by decide

example : executeCase .lax ⟨10, 30, [⟨false, false⟩]⟩ = .passed := by decide

example : executeCase .strict ⟨10, 30, [⟨false, false⟩]⟩ = .failed .outputMismatch := by
  decide

example : executeCase .strict ⟨40, 30, [⟨false, true⟩]⟩ = .failed .timeoutErr := by decide

example : discoverNotebooks
    [["NxD", "a.ipynb"], ["NxD", ".ipynb_checkpoints", "a-checkpoint.ipynb"],
     ["vLLM", "b.ipynb"], ["Hyperpod", "README.md"]] =
    [["NxD", "a.ipynb"], ["vLLM", "b.ipynb"]] := by decide

example : scheduleRun 0 [("a", 3), ("b", 2)] = [("a", 0, 3), ("b", 3, 5)] := by decide

/-- Unfolding: the loop ends when the word list is exhausted. -/
lemma parseArgsFrom_nil (acc : ParsedArgs) : parseArgsFrom acc [] = some acc := rfl

/-- Unfolding: a trailing `--notebook` without a value aborts the script. -/
lemma parseArgsFrom_notebook_nil (acc : ParsedArgs) :
    parseArgsFrom acc ["--notebook"] = none := by
  rw [parseArgsFrom.eq_def]
  simp

/-- Unfolding: `--notebook v` stores `v` as the specific notebook. -/
lemma parseArgsFrom_notebook (acc : ParsedArgs) (v : String) (rest2 : List String) :
    parseArgsFrom acc ("--notebook" :: v :: rest2) =
      parseArgsFrom { acc with specificNotebook := v } rest2 := by
  rw [parseArgsFrom.eq_def]
  simp

/-- Unfolding: `--html-report` sets the report flag. -/
lemma parseArgsFrom_html (acc : ParsedArgs) (rest : List String) :
    parseArgsFrom acc ("--html-report" :: rest) =
      parseArgsFrom { acc with htmlReport := true } rest := by
  rw [parseArgsFrom.eq_def]
  simp

/-- Unfolding: `--fast` appends `-x --tb=line` to the pytest arguments. -/
lemma parseArgsFrom_fast (acc : ParsedArgs) (rest : List String) :
    parseArgsFrom acc ("--fast" :: rest) =
      parseArgsFrom { acc with pytestArgs := acc.pytestArgs ++ ["-x", "--tb=line"] } rest := by
  rw [parseArgsFrom.eq_def]
  simp

/-- Unfolding: `--verbose` appends `-vv` to the pytest arguments. -/
lemma parseArgsFrom_verbose (acc : ParsedArgs) (rest : List String) :
    parseArgsFrom acc ("--verbose" :: rest) =
      parseArgsFrom { acc with pytestArgs := acc.pytestArgs ++ ["-vv"] } rest := by
  rw [parseArgsFrom.eq_def]
  simp

/-- Unfolding: any other word is passed through to the pytest arguments. -/
lemma parseArgsFrom_other (acc : ParsedArgs) (v : String) (rest : List String)
    (h1 : ¬v = "--notebook") (h2 : ¬v = "--html-report") (h3 : ¬v = "--fast")
    (h4 : ¬v = "--verbose") :
    parseArgsFrom acc (v :: rest) =
      parseArgsFrom { acc with pytestArgs := acc.pytestArgs ++ [v] } rest := by
  rw [parseArgsFrom.eq_def]
  simp [h1, h2, h3, h4]

/-- Parsing a fully consumable argument block and then more arguments is the
same as parsing the block first and continuing from its result. -/
lemma parseArgsFrom_append (acc : ParsedArgs) (l₁ : List String) :
    ∀ (l₂ : List String) (b : ParsedArgs), parseArgsFrom acc l₁ = some b →
      parseArgsFrom acc (l₁ ++ l₂) = parseArgsFrom b l₂ := by
  induction acc, l₁ using parseArgsFrom.induct with
  | case1 acc =>
    intro l₂ b hb
    rw [parseArgsFrom_nil] at hb
    cases hb
    rfl
  | case2 acc =>
    intro l₂ b hb
    rw [parseArgsFrom_notebook_nil] at hb
    cases hb
  | case3 acc v rest2 ih =>
    intro l₂ b hb
    rw [parseArgsFrom_notebook] at hb
    rw [List.cons_append, List.cons_append, parseArgsFrom_notebook]
    exact ih l₂ b hb
  | case4 acc rest2 hne ih =>
    intro l₂ b hb
    rw [parseArgsFrom_html] at hb
    rw [List.cons_append, parseArgsFrom_html]
    exact ih l₂ b hb
  | case5 acc rest2 hne1 hne2 ih =>
    intro l₂ b hb
    rw [parseArgsFrom_fast] at hb
    rw [List.cons_append, parseArgsFrom_fast]
    exact ih l₂ b hb
  | case6 acc rest2 hne1 hne2 hne3 ih =>
    intro l₂ b hb
    rw [parseArgsFrom_verbose] at hb
    rw [List.cons_append, parseArgsFrom_verbose]
    exact ih l₂ b hb
  | case7 acc v rest2 hne1 hne2 hne3 hne4 ih =>
    intro l₂ b hb
    rw [parseArgsFrom_other acc v rest2 hne1 hne2 hne3 hne4] at hb
    rw [List.cons_append, parseArgsFrom_other acc v (rest2 ++ l₂) hne1 hne2 hne3 hne4]
    exact ih l₂ b hb

/-- The argument loop only ever appends to `PYTEST_ARGS`: every word already
accumulated is still present in the final parse state. -/
lemma parseArgsFrom_mono (acc : ParsedArgs) (l : List String) :
    ∀ (b : ParsedArgs) (x : String), parseArgsFrom acc l = some b →
      x ∈ acc.pytestArgs → x ∈ b.pytestArgs := by
  induction acc, l using parseArgsFrom.induct with
  | case1 acc =>
    intro b x hb hx
    rw [parseArgsFrom_nil] at hb
    cases hb
    exact hx
  | case2 acc =>
    intro b x hb hx
    rw [parseArgsFrom_notebook_nil] at hb
    cases hb
  | case3 acc v rest2 ih =>
    intro b x hb hx
    rw [parseArgsFrom_notebook] at hb
    exact ih b x hb hx
  | case4 acc rest2 hne ih =>
    intro b x hb hx
    rw [parseArgsFrom_html] at hb
    exact ih b x hb hx
  | case5 acc rest2 hne1 hne2 ih =>
    intro b x hb hx
    rw [parseArgsFrom_fast] at hb
    exact ih b x hb (by simp [hx])
  | case6 acc rest2 hne1 hne2 hne3 ih =>
    intro b x hb hx
    rw [parseArgsFrom_verbose] at hb
    exact ih b x hb (by simp [hx])
  | case7 acc v rest2 hne1 hne2 hne3 hne4 ih =>
    intro b x hb hx
    rw [parseArgsFrom_other acc v rest2 hne1 hne2 hne3 hne4] at hb
    exact ih b x hb (by simp [hx])

/-- pytest's exit code is zero exactly when no executed case failed. -/
lemma pytestExit_eq_zero_iff (rs : List CaseResult) :
    pytestExit rs = 0 ↔ ∀ r ∈ rs, isFail r = false := by
  constructor
  · intro h0 r hr
    by_contra hf
    have hany : rs.any isFail = true :=
      List.any_eq_true.mpr ⟨r, hr, by simpa using hf⟩
    simp [pytestExit, hany] at h0
  · intro hall
    have hany : rs.any isFail = false := by
      rw [List.any_eq_false]
      intro r hr
      simp [hall r hr]
    simp [pytestExit, hany]

/-- Under fail-fast, a suite whose first failure follows a failure-free
block executes exactly that block plus the failing case. -/
lemma upToFirstFailure_eq (pre : List CaseResult) (f : CaseResult)
    (post : List CaseResult) (hpre : ∀ r ∈ pre, isFail r = false)
    (hf : isFail f = true) :
    upToFirstFailure (pre ++ f :: post) = pre ++ [f] := by
  induction pre with
  | nil => simp [upToFirstFailure, hf]
  | cons r rest ih =>
    have hr : isFail r = false := hpre r (by simp)
    simp only [List.cons_append, upToFirstFailure, hr]
    simp only [Bool.false_eq_true, if_false, List.cons.injEq, true_and]
    exact ih fun x hx => hpre x (by simp [hx])

/-- Every scheduled interval starts no earlier than the schedule's start
instant. -/
lemma scheduleRun_start_le (cs : List (String × Nat)) :
    ∀ (s : Nat) (x : String × Nat × Nat), x ∈ scheduleRun s cs → s ≤ x.2.1 := by
  induction cs with
  | nil => intro s x hx; simp [scheduleRun] at hx
  | cons c rest ih =>
    intro s x hx
    obtain ⟨p, d⟩ := c
    simp only [scheduleRun, List.mem_cons] at hx
    rcases hx with hx | hx
    · subst hx; simp
    · exact le_trans (Nat.le_add_right s d) (ih (s + d) x hx)

/-- Scheduled intervals are chained: each one ends no later than any later
one starts. -/
lemma scheduleRun_chain (cs : List (String × Nat)) :
    ∀ (s : Nat), (scheduleRun s cs).Pairwise (fun x y => x.2.2 ≤ y.2.1) := by
  induction cs with
  | nil => intro s; simp [scheduleRun]
  | cons c rest ih =>
    intro s
    obtain ⟨p, d⟩ := c
    simp only [scheduleRun]
    exact List.Pairwise.cons (fun y hy => scheduleRun_start_le rest (s + d) y hy)
      (ih (s + d))

/-- The schedule lists the cases' paths in the input order. -/
lemma scheduleRun_map_fst (cs : List (String × Nat)) :
    ∀ (s : Nat), (scheduleRun s cs).map Prod.fst = cs.map Prod.fst := by
  induction cs with
  | nil => intro s; rfl
  | cons c rest ih =>
    intro s
    obtain ⟨p, d⟩ := c
    simp [scheduleRun, ih]

/-- C1: the runner's process exit code is 0 if and only if every executed
notebook case passed — 0 on an all-pass run, nonzero as soon as any
executed case failed.  Stated for runs that reach notebook execution (labs
directory found, Neuron venv present, arguments parse). -/
theorem runner_exit_zero_iff_all_pass (e : Env) (argv : List String)
    (suite : List CaseResult) (a : ParsedArgs)
    (hl : labsFound e = true) (hv : e.venvPresent = true)
    (hp : parseArgs argv = some a) :
    (runScript e argv suite).exitCode = 0 ↔
      ∀ r ∈ (runScript e argv suite).executed, isFail r = false := by
  have h1 : runScript e argv suite =
      { exitCode := pytestExit (runPytest (hasFailFast a) suite), errClass := none,
        executed := runPytest (hasFailFast a) suite, target := some (targetOf a) } := by
    simp [runScript, hl, hv, hp]
  rw [h1]
  exact pytestExit_eq_zero_iff _

/-- C1 witness: a concrete all-pass run exits with code 0. -/
theorem runner_exit_zero_iff_all_pass_witness :
    (runScript ⟨true, false, false, true⟩ [] [.passed, .skipped]).exitCode = 0 :=
  (runner_exit_zero_iff_all_pass ⟨true, false, false, true⟩ [] [.passed, .skipped]
    emptyArgs rfl rfl rfl).mpr (by decide)

/-- C2 counterexample: an invocation with the Neuron venv absent need not
fail with the environment-class error — when the labs directory is also
missing, the labs check of lines 17-31 fires first and the script fails
with the discovery-class error instead. -/
theorem venv_absent_can_fail_with_discovery_error :
    (Env.mk false false false false).venvPresent = false ∧
    (runScript ⟨false, false, false, false⟩ [] [.passed]).errClass = some .discovery ∧
    ¬(runScript ⟨false, false, false, false⟩ [] [.passed]).errClass =
      some .environment := by
  decide

/-- C2 (amended): for every invocation where the labs directory is found but
the Neuron venv is absent, the script fails immediately with the
environment-class error, a nonzero exit code, and zero notebook cases
executed, regardless of the command line and of notebook content. -/
theorem venv_absent_env_error (e : Env) (argv : List String)
    (suite : List CaseResult) (hl : labsFound e = true)
    (hv : e.venvPresent = false) :
    (runScript e argv suite).errClass = some .environment ∧
    (runScript e argv suite).exitCode ≠ 0 ∧
    (runScript e argv suite).executed = [] := by
  simp [runScript, hl, hv]

/-- C2 witness: a concrete venv-absent invocation with a nonempty suite. -/
theorem venv_absent_env_error_witness :
    (runScript ⟨true, false, false, false⟩ ["--verbose"] [.passed]).errClass =
      some .environment ∧
    (runScript ⟨true, false, false, false⟩ ["--verbose"] [.passed]).exitCode ≠ 0 ∧
    (runScript ⟨true, false, false, false⟩ ["--verbose"] [.passed]).executed = [] :=
  venv_absent_env_error ⟨true, false, false, false⟩ ["--verbose"] [.passed] rfl rfl

/-- C3: for every invocation where no labs directory exists at any of the
searched locations, the script fails immediately with the discovery-class
error, a nonzero exit code, and zero notebook cases attempted. -/
theorem labs_missing_discovery_error (e : Env) (argv : List String)
    (suite : List CaseResult) (hl : labsFound e = false) :
    (runScript e argv suite).errClass = some .discovery ∧
    (runScript e argv suite).exitCode ≠ 0 ∧
    (runScript e argv suite).executed = [] := by
  simp [runScript, hl]

/-- C3 witness: a concrete labs-missing invocation with a nonempty suite. -/
theorem labs_missing_discovery_error_witness :
    (runScript ⟨false, false, false, true⟩ ["--fast"] [.passed]).errClass =
      some .discovery ∧
    (runScript ⟨false, false, false, true⟩ ["--fast"] [.passed]).exitCode ≠ 0 ∧
    (runScript ⟨false, false, false, true⟩ ["--fast"] [.passed]).executed = [] :=
  labs_missing_discovery_error ⟨false, false, false, true⟩ ["--fast"] [.passed] rfl

/-- C4: classification is a deterministic function of the notebook path —
equal categories force equal (category, timeout) pairs, the timeout is
fully determined by the category, and the fixed table gives NxD 30 min,
FineTuning 60 min, vLLM 30 min, NKI 15 min, with unmatched paths getting
the default timeout (each table row stated for paths whose longer-marker
rows do not also match). -/
theorem classify_deterministic_with_table (d : Nat) (p q : String) :
    (classifyCategory p = classifyCategory q → classify d p = classify d q) ∧
    (classify d p).2 = timeoutFor d (classify d p).1 ∧
    (pathHas p "FineTuning" = true → classify d p = (.fineTuning, 60)) ∧
    (pathHas p "FineTuning" = false → pathHas p "vLLM" = true →
      classify d p = (.vllm, 30)) ∧
    (pathHas p "FineTuning" = false → pathHas p "vLLM" = false →
      pathHas p "NxD" = true → classify d p = (.nxd, 30)) ∧
    (pathHas p "FineTuning" = false → pathHas p "vLLM" = false →
      pathHas p "NxD" = false → pathHas p "NKI" = true →
      classify d p = (.nki, 15)) ∧
    (pathHas p "FineTuning" = false → pathHas p "vLLM" = false →
      pathHas p "NxD" = false → pathHas p "NKI" = false →
      classify d p = (.uncategorized, d)) := by
  refine ⟨?_, rfl, ?_, ?_, ?_, ?_, ?_⟩
  · intro h
    simp [classify, h]
  · intro h1
    simp [classify, classifyCategory, timeoutFor, h1]
  · intro h1 h2
    simp [classify, classifyCategory, timeoutFor, h1, h2]
  · intro h1 h2 h3
    simp [classify, classifyCategory, timeoutFor, h1, h2, h3]
  · intro h1 h2 h3 h4
    simp [classify, classifyCategory, timeoutFor, h1, h2, h3, h4]
  · intro h1 h2 h3 h4
    simp [classify, classifyCategory, timeoutFor, h1, h2, h3, h4]

/-- C4 witness: the repository's NxD lab notebook classifies to
(NxD, 30 minutes). -/
theorem classify_deterministic_with_table_witness :
    classify 20 "labs/Lab_One_NxDI.ipynb" = (.nxd, 30) :=
  (classify_deterministic_with_table 20 "labs/Lab_One_NxDI.ipynb" "x").2.2.2.2.1
    (by decide) (by decide) (by decide)

/-- C5: a notebook case whose wall-clock execution exceeds its category's
timeout budget is aborted and fails with the timeout error, in either
comparison mode — never a silent hang. -/
theorem timeout_exceeded_fails_with_timeout (mode : CompareMode)
    (c : NotebookExec) (h : c.budget < c.duration) :
    executeCase mode c = .failed .timeoutErr := by
  simp [executeCase, h]

/-- C5 witness: a 40-unit run against a 30-unit budget times out. -/
theorem timeout_exceeded_fails_with_timeout_witness :
    executeCase .strict ⟨40, 30, [⟨false, true⟩]⟩ = .failed .timeoutErr :=
  timeout_exceeded_fails_with_timeout .strict ⟨40, 30, [⟨false, true⟩]⟩ (by decide)

/-- C6: in fail-fast mode (the `--fast` flag, passed at a flag position of
the command line), a run whose suite is a failure-free block, then a
failing case, then further cases executes exactly the block plus the first
failing case and nothing after it. -/
theorem fast_flag_executes_up_to_first_failure (e : Env)
    (front rest : List String) (b a : ParsedArgs)
    (pre post : List CaseResult) (k : FailKind)
    (hl : labsFound e = true) (hv : e.venvPresent = true)
    (hfront : parseArgs front = some b)
    (hp : parseArgs (front ++ "--fast" :: rest) = some a)
    (hpre : ∀ r ∈ pre, isFail r = false) :
    (runScript e (front ++ "--fast" :: rest)
        (pre ++ CaseResult.failed k :: post)).executed =
      pre ++ [CaseResult.failed k] := by
  have hx : "-x" ∈ a.pytestArgs := by
    have happ := parseArgsFrom_append emptyArgs front ("--fast" :: rest) b hfront
    have hp2 : parseArgsFrom emptyArgs (front ++ "--fast" :: rest) = some a := hp
    rw [happ, parseArgsFrom_fast] at hp2
    exact parseArgsFrom_mono _ rest a "-x" hp2 (by simp)
  have hff : hasFailFast a = true := by
    simpa [hasFailFast, List.contains] using List.elem_iff.mpr hx
  have h1 : (runScript e (front ++ "--fast" :: rest)
      (pre ++ CaseResult.failed k :: post)).executed =
      runPytest (hasFailFast a) (pre ++ CaseResult.failed k :: post) := by
    simp [runScript, hl, hv, hp]
  rw [h1, hff]
  simp only [runPytest, if_pos rfl]
  exact upToFirstFailure_eq pre (CaseResult.failed k) post hpre rfl

/-- C6 witness: a concrete `--fast` run stops right after the first
failure. -/
theorem fast_flag_executes_up_to_first_failure_witness :
    (runScript ⟨true, false, false, true⟩ (([] : List String) ++ "--fast" :: [])
        ([CaseResult.passed] ++ CaseResult.failed .execError :: [.passed])).executed =
      [CaseResult.passed] ++ [CaseResult.failed .execError] :=
  fast_flag_executes_up_to_first_failure ⟨true, false, false, true⟩ [] [] emptyArgs
    ⟨["-x", "--tb=line"], "", false⟩ [.passed] [.passed] .execError rfl rfl rfl
    (by decide) (by decide)

/-- C7: discovery yields exactly the notebook files under the root that do
not lie inside a checkpoint-marker directory — every such notebook is
discovered, and no notebook inside `.ipynb_checkpoints` ever is. -/
theorem discovery_is_notebooks_outside_checkpoints (files : List FilePath')
    (p : FilePath') :
    p ∈ discoverNotebooks files ↔
      p ∈ files ∧ isNotebookPath p = true ∧ inCheckpointDir p = false := by
  simp [discoverNotebooks, List.mem_filter]

/-- C8: in relaxed comparison mode a notebook whose cells all execute
without exception passes, whatever its captured outputs; relaxed mode can
only fail when some cell raised. -/
theorem lax_mode_passes_unless_exception (cells : List CellRun) :
    ((∀ c ∈ cells, c.raised = false) → compareCells .lax cells = .passed) ∧
    (compareCells .lax cells ≠ .passed → ∃ c ∈ cells, c.raised = true) := by
  constructor
  · intro hall
    have h : cells.any (·.raised) = false := by
      rw [List.any_eq_false]
      intro c hc
      simp [hall c hc]
    simp [compareCells, h]
  · intro hne
    by_contra hno
    push_neg at hno
    have h : cells.any (·.raised) = false := by
      rw [List.any_eq_false]
      intro c hc
      simpa using hno c hc
    exact hne (by simp [compareCells, h])

/-- C8 witness: a cell with mismatching output but no exception passes in
relaxed mode. -/
theorem lax_mode_passes_unless_exception_witness :
    compareCells .lax [⟨false, false⟩] = .passed :=
  (lax_mode_passes_unless_exception [⟨false, false⟩]).1 (by decide)

/-- C9: the sequential schedule runs the cases in discovery order and at no
instant are two scheduled cases active at the same time. -/
theorem sequential_schedule_in_discovery_order (s : Nat)
    (cs : List (String × Nat)) :
    (scheduleRun s cs).map Prod.fst = cs.map Prod.fst ∧
    (scheduleRun s cs).Pairwise
      (fun x y => ∀ t : Nat, ¬(activeAt x t ∧ activeAt y t)) := by
  refine ⟨scheduleRun_map_fst cs s, ?_⟩
  refine List.Pairwise.imp ?_ (scheduleRun_chain cs s)
  intro x y hxy t hct
  obtain ⟨⟨hx1, hx2⟩, hy1, hy2⟩ := hct
  exact Nat.lt_irrefl t (Nat.lt_of_lt_of_le hx2 (Nat.le_trans hxy hy1))

/-- C10: with `--notebook P` (for nonempty `P`), the pytest target is always
`labs/P`, which is never the path `P` the caller named — so absolute paths
and paths already starting with `labs/` do not point pytest at the file
they name. -/
theorem notebook_arg_runs_labs_prefixed_path (e : Env) (argv : List String)
    (suite : List CaseResult) (a : ParsedArgs) (p : String)
    (hl : labsFound e = true) (hv : e.venvPresent = true)
    (hp : parseArgs argv = some a) (hn : a.specificNotebook = p)
    (hne : ¬p = "") :
    (runScript e argv suite).target = some (.single ("labs/" ++ p)) ∧
    ¬("labs/" ++ p) = p := by
  constructor
  · simp [runScript, hl, hv, hp, targetOf, hn, hne]
  · intro h
    have hlen := congrArg String.length h
    rw [String.length_append] at hlen
    have h5 : ("labs/" : String).length = 5 := rfl
    omega

/-- C10 witness: `--notebook NxD/a.ipynb` targets `labs/NxD/a.ipynb`. -/
theorem notebook_arg_runs_labs_prefixed_path_witness :
    (runScript ⟨true, false, false, true⟩ ["--notebook", "NxD/a.ipynb"]
        [.passed]).target = some (.single ("labs/" ++ "NxD/a.ipynb")) ∧
    ¬("labs/" ++ "NxD/a.ipynb") = "NxD/a.ipynb" :=
  notebook_arg_runs_labs_prefixed_path ⟨true, false, false, true⟩
    ["--notebook", "NxD/a.ipynb"] [.passed] ⟨[], "NxD/a.ipynb", false⟩
    "NxD/a.ipynb" rfl rfl (by decide) rfl (by decide)

example : runScript ⟨true, false, false, true⟩ [] [.passed, .passed] =
    { exitCode := 0, errClass := none, executed := [.passed, .passed],
      target := some .allLabs } := by decide

example : (runScript ⟨true, false, false, true⟩ []
    [.passed, .failed .execError]).exitCode = 1 := by decide

example : runScript ⟨false, false, false, false⟩ [] [] =
    { exitCode := 1, errClass := some .discovery, executed := [], target := none } := by
  decide

example : (runScript ⟨true, false, false, true⟩ ["--notebook", "NxD/a.ipynb"] []).target =
    some (.single "labs/NxD/a.ipynb") := by decide

example : (runScript ⟨true, false, false, true⟩ ["--fast"]
    [.passed, .failed .execError, .passed]).executed =
    [.passed, .failed .execError] := by decide

end NeuronWorkshops
